import Mathlib

/-!
# ELD Hours-of-Service engine: formal model and verification

This file gives a shallow embedding of the ELD project's HOS compliance
engine and of two frontend helper functions, and proves properties of them.

Times are rational numbers of hours on a single continuous clock, as the
spec assumes (no time zones / DST).  The backend engine itself
(RollingWindowAggregator, AppendDutyStatus, PlanTrip) is not part of the
checked-in sources — only its frontend callers are — so those definitions
are modelled from the specification text, as indicated on each one.
The frontend helpers `formatHours` and `calculateTotals` are translated
directly from the JavaScript sources.
-/

namespace ELD

attribute [local semireducible] Rat.add Rat.sub Rat.mul Rat.inv

/-- Duty status codes: OFF (off duty), SB (sleeper berth), DR (driving),
ON (on duty, not driving). -/
inductive DutyStatus
  | OFF
  | SB
  | DR
  | ON
deriving DecidableEq, Repr

/-- One entry in a driver's append-only timeline.  `timestamp_end = none`
means the event is open (currently in effect). -/
structure DutyStatusEvent where
  timestamp_start : ℚ
  timestamp_end : Option ℚ
  duty_status : DutyStatus
  location : String
  odometer : ℤ
  remarks : String
deriving DecidableEq, Repr

/-- Fixed rule constants. -/
structure RuleSet where
  drive_limit_hours : ℚ
  duty_window_hours : ℚ
  break_trigger_hours : ℚ
  break_duration_minutes : ℚ
  weekly_limit_hours : ℚ
  weekly_period_days : ℚ
  reset_hours : ℚ
deriving DecidableEq, Repr

/-- The configuration value from the spec: 11h drive limit, 14h duty
window, 8h-then-30min break rule, 70h / 8-day cap, 10h reset. -/
def defaultRules : RuleSet :=
  { drive_limit_hours := 11
    duty_window_hours := 14
    break_trigger_hours := 8
    break_duration_minutes := 30
    weekly_limit_hours := 70
    weekly_period_days := 8
    reset_hours := 10 }

/-- Executable maximum on ℚ (agrees with `max`, see `qmax_eq`); spelled
out so that closed instances evaluate by kernel reduction. -/
def qmax (a b : ℚ) : ℚ :=
  if a ≤ b then b else a

/-- Executable minimum on ℚ (agrees with `min`, see `qmin_eq`). -/
def qmin (a b : ℚ) : ℚ :=
  if a ≤ b then a else b

theorem qmax_eq (a b : ℚ) : qmax a b = max a b := by
  rw [qmax, max_def]

theorem qmin_eq (a b : ℚ) : qmin a b = min a b := by
  rw [qmin, min_def]

/-- An open event is treated as ongoing until the evaluation instant `t`;
a closed event is clipped to `t`. -/
def clippedEnd (t : ℚ) (e : DutyStatusEvent) : ℚ :=
  qmin (e.timestamp_end.getD t) t

/-- OFF and SB count as rest for the 10-hour reset test. -/
def isRestStatus : DutyStatus → Bool
  | .OFF => true
  | .SB => true
  | _ => false

/-- ON and DR count as on-duty time. -/
def isOnDutyStatus : DutyStatus → Bool
  | .ON => true
  | .DR => true
  | _ => false

/-- DR only. -/
def isDrivingStatus : DutyStatus → Bool
  | .DR => true
  | _ => false

/-- Sum of the durations of the events selected by `p`, intersected with
the window `[lo, t]` (events straddling a boundary contribute only their
portion inside the window). -/
def hoursIn (t lo : ℚ) (p : DutyStatus → Bool) (tl : List DutyStatusEvent) : ℚ :=
  tl.foldl
    (fun acc e =>
      if p e.duty_status then
        acc + qmax 0 (clippedEnd t e - qmax e.timestamp_start lo)
      else acc)
    0

/-- If the scanned rest block is long enough to qualify as a reset, the
duty-period start moves to the end of the block. -/
def commitRestBlock (rs : RuleSet) (blk : Option (ℚ × ℚ)) (d : ℚ) : ℚ :=
  match blk with
  | some be => if rs.reset_hours ≤ be.2 - be.1 then be.2 else d
  | none => d

/-- Modelled from the spec: one step of the backward duty-period-start
scan of the RollingWindowAggregator (run forward as a fold).  The state is
the current merged OFF/SB rest block, if any, together with the latest
duty-period start found so far; adjacent OFF and SB events merge into a
single continuous rest block. -/
def dutyScanStep (rs : RuleSet) (t : ℚ) (st : Option (ℚ × ℚ) × ℚ)
    (e : DutyStatusEvent) : Option (ℚ × ℚ) × ℚ :=
  let s := e.timestamp_start
  let en := clippedEnd t e
  if isRestStatus e.duty_status then
    match st.1 with
    | some be =>
        if be.2 = s then (some (be.1, en), st.2)
        else (some (s, en), commitRestBlock rs st.1 st.2)
    | none => (some (s, en), st.2)
  else
    (none, commitRestBlock rs st.1 st.2)

/-- Modelled from the spec: the RollingWindowAggregator's duty-period
start, which is missing from the checked-in sources.  The most recent
point preceded by a continuous OFF/SB block of at least `reset_hours`;
if no qualifying block exists, the first recorded event; for an empty
timeline, the evaluation instant `t` itself. -/
def dutyPeriodStart (rs : RuleSet) (tl : List DutyStatusEvent) (t : ℚ) : ℚ :=
  let evs := tl.filter (fun e => e.timestamp_start < t)
  match evs with
  | [] => t
  | e0 :: _ =>
      let fin := evs.foldl (dutyScanStep rs t) (none, e0.timestamp_start)
      commitRestBlock rs fin.1 fin.2

/-- If the scanned non-driving block lasts at least
`break_duration_minutes`, the last qualifying break moves to its end. -/
def commitBreakBlock (rs : RuleSet) (blk : Option (ℚ × ℚ)) (d : ℚ) : ℚ :=
  match blk with
  | some be => if rs.break_duration_minutes / 60 ≤ be.2 - be.1 then be.2 else d
  | none => d

/-- Modelled from the spec: one step of the break scan.  Contiguous
OFF/SB/ON (non-driving) events since the duty-period start `ds` merge
into one candidate break span. -/
def breakScanStep (rs : RuleSet) (ds t : ℚ) (st : Option (ℚ × ℚ) × ℚ)
    (e : DutyStatusEvent) : Option (ℚ × ℚ) × ℚ :=
  let s := qmax e.timestamp_start ds
  let en := qmax (clippedEnd t e) s
  if isDrivingStatus e.duty_status then
    (none, commitBreakBlock rs st.1 st.2)
  else
    match st.1 with
    | some be =>
        if be.2 = s then (some (be.1, en), st.2)
        else (some (s, en), commitBreakBlock rs st.1 st.2)
    | none => (some (s, en), st.2)

/-- Modelled from the spec: end of the most recent qualifying break
(a contiguous non-driving span of at least `break_duration_minutes`)
since the duty-period start `ds`; `ds` itself if there is none. -/
def lastBreakEnd (rs : RuleSet) (tl : List DutyStatusEvent) (t ds : ℚ) : ℚ :=
  let evs := tl.filter (fun e => e.timestamp_start < t)
  let fin := evs.foldl (breakScanStep rs ds t) (none, ds)
  commitBreakBlock rs fin.1 fin.2

/-- Status of the most recent event started before `t`; OFF when the
timeline is empty. -/
def currentStatus (tl : List DutyStatusEvent) (t : ℚ) : DutyStatus :=
  match (tl.filter (fun e => e.timestamp_start < t)).getLast? with
  | some e => e.duty_status
  | none => .OFF

/-- Derived live regulatory state. -/
structure DriverHOSState where
  hours_driven_today : ℚ
  hours_on_duty_today : ℚ
  remaining_drive_time : ℚ
  remaining_duty_time : ℚ
  hours_in_8_day_period : ℚ
  remaining_70_hour : ℚ
  time_since_last_break : ℚ
  needs_30_min_break : Bool
  can_drive : Bool
  current_duty_status : DutyStatus
deriving DecidableEq, Repr

/-- Modelled from the spec: step 3 of the RollingWindowAggregator. -/
def hoursDrivenToday (rs : RuleSet) (tl : List DutyStatusEvent) (t : ℚ) : ℚ :=
  hoursIn t (dutyPeriodStart rs tl t) isDrivingStatus tl

/-- Modelled from the spec: step 2 of the RollingWindowAggregator. -/
def hoursOnDutyToday (rs : RuleSet) (tl : List DutyStatusEvent) (t : ℚ) : ℚ :=
  hoursIn t (dutyPeriodStart rs tl t) isOnDutyStatus tl

/-- Modelled from the spec: step 7, the continuously sliding
`weekly_period_days × 24`-hour on-duty sum ending at `t`. -/
def hoursIn8DayPeriod (rs : RuleSet) (tl : List DutyStatusEvent) (t : ℚ) : ℚ :=
  hoursIn t (t - rs.weekly_period_days * 24) isOnDutyStatus tl

/-- Modelled from the spec: step 6, DR time since the most recent
qualifying break. -/
def timeSinceLastBreak (rs : RuleSet) (tl : List DutyStatusEvent) (t : ℚ) : ℚ :=
  hoursIn t (lastBreakEnd rs tl t (dutyPeriodStart rs tl t)) isDrivingStatus tl

/-- Modelled from the spec: the RollingWindowAggregator, which is missing
from the checked-in sources.  Given an ordered timeline truncated at the
evaluation instant `t` and a RuleSet, produce `DriverHOSState` as of `t`.
Pure function, no side effects. -/
def computeHOS (rs : RuleSet) (tl : List DutyStatusEvent) (t : ℚ) : DriverHOSState :=
  let hd := hoursDrivenToday rs tl t
  let hod := hoursOnDutyToday rs tl t
  let rd := qmax 0 (rs.drive_limit_hours - hd)
  let rduty := qmax 0 (rs.duty_window_hours - (t - dutyPeriodStart rs tl t))
  let h8 := hoursIn8DayPeriod rs tl t
  let r70 := qmax 0 (rs.weekly_limit_hours - h8)
  let tslb := timeSinceLastBreak rs tl t
  let needs := decide (rs.break_trigger_hours ≤ tslb)
  { hours_driven_today := hd
    hours_on_duty_today := hod
    remaining_drive_time := rd
    remaining_duty_time := rduty
    hours_in_8_day_period := h8
    remaining_70_hour := r70
    time_since_last_break := tslb
    needs_30_min_break := needs
    can_drive := decide (0 < rd) && decide (0 < rduty) && decide (0 < r70) && !needs
    current_duty_status := currentStatus tl t }

/-- Engine error taxonomy. -/
inductive EngineError
  | OrderingError
  | ValidationError
  | NotFoundError
deriving DecidableEq, Repr

/-- Dynamic duty-status strings become a closed four-variant enum at the
engine boundary; any unrecognized value is rejected. -/
def parseStatusCode (s : String) : Option DutyStatus :=
  if s = "OFF" then some .OFF
  else if s = "SB" then some .SB
  else if s = "DR" then some .DR
  else if s = "ON" then some .ON
  else none

/-- A new event implicitly closes the prior open event at the new event's
start time. -/
def closeOpenEvents (q : ℚ) (tl : List DutyStatusEvent) : List DutyStatusEvent :=
  tl.map (fun e =>
    match e.timestamp_end with
    | none => { e with timestamp_end := some q }
    | some _ => e)

/-- Whether `q` precedes the start of the driver's last event. -/
def precedesLastStart (tl : List DutyStatusEvent) (q : ℚ) : Bool :=
  match tl.getLast? with
  | some e => decide (q < e.timestamp_start)
  | none => false

/-- Modelled from the spec: the `AppendDutyStatus` engine operation,
which is missing from the checked-in sources (only its frontend caller
`handleStatusChange` is present).  Fails with `OrderingError` if the new
timestamp precedes the last event start; fails with `ValidationError` if
the duty status is not one of the four codes or the odometer is negative;
otherwise closes any open event, appends, and recomputes the state. -/
def appendDutyStatus (rs : RuleSet) (tl : List DutyStatusEvent)
    (duty_status : String) (location : String) (odometer : ℤ)
    (remarks : String) (at_hour : ℚ) :
    Except EngineError (List DutyStatusEvent × DriverHOSState) :=
  if precedesLastStart tl at_hour then .error .OrderingError
  else
    match parseStatusCode duty_status with
    | none => .error .ValidationError
    | some st =>
        if odometer < 0 then .error .ValidationError
        else
          let tl2 := closeOpenEvents at_hour tl ++
            [⟨at_hour, none, st, location, odometer, remarks⟩]
          .ok (tl2, computeHOS rs tl2 at_hour)

/-- The driver's timeline after an `AppendDutyStatus` request: the new
timeline on success, the old one untouched on any error (the engine never
partially applies a mutation). -/
def timelineAfterAppend (rs : RuleSet) (tl : List DutyStatusEvent)
    (duty_status : String) (location : String) (odometer : ℤ)
    (remarks : String) (at_hour : ℚ) : List DutyStatusEvent :=
  match appendDutyStatus rs tl duty_status location odometer remarks at_hour with
  | .ok p => p.1
  | .error _ => tl

/-- Kinds of waypoints produced by the trip simulator. -/
inductive WaypointKind
  | origin
  | pickup
  | rest
  | dropoff
deriving DecidableEq, Repr

/-- One waypoint of a projected trip plan. -/
structure Waypoint where
  name : String
  kind : WaypointKind
deriving DecidableEq, Repr

/-- Trip-planning result: infeasibility is a normal outcome, not an
exception. -/
structure TripPlanResult where
  can_complete_trip : Bool
  reasons : List String
  waypoints : List Waypoint
  estimated_driving_time : ℚ
  hos_status : DriverHOSState
deriving DecidableEq, Repr

/-- Modelled from the spec: eager 30-minute-break insertion count.  A rest
stop is inserted at the earliest point the 8-hour break trigger would be
crossed; the fuel argument bounds the recursion (the number of insertions
is bounded by the driving hours over the trigger granularity). -/
def breaksFor (rs : RuleSet) : ℕ → ℚ → ℚ → ℕ
  | 0, _, _ => 0
  | f + 1, sinceBreak, remaining =>
      if remaining < rs.break_trigger_hours - sinceBreak then 0
      else 1 + breaksFor rs f 0 (remaining - (rs.break_trigger_hours - sinceBreak))

/-- Modelled from the spec: the `PlanTrip` operation of the
TripFeasibilitySimulator, which is missing from the checked-in sources
(only its frontend caller `handleTripPlanning` is present).  Fails with
`ValidationError` if `estimated_driving_hours ≤ 0`; otherwise walks the
proposed driving forward, eagerly inserting rest stops, and returns a
normal result whose `can_complete_trip` is false with a human-readable
reason when the rolling 70-hour budget would be exceeded. -/
def planTrip (rs : RuleSet) (tl : List DutyStatusEvent) (t : ℚ)
    (current_location pickup_location dropoff_location : String)
    (estimated_driving_hours : ℚ) : Except EngineError TripPlanResult :=
  if estimated_driving_hours ≤ 0 then .error .ValidationError
  else
    let st := computeHOS rs tl t
    let feasible := decide (estimated_driving_hours ≤ st.remaining_70_hour)
    let k := breaksFor rs (⌈estimated_driving_hours⌉.toNat + 1)
      st.time_since_last_break estimated_driving_hours
    let rests : List Waypoint := List.replicate k ⟨"Rest Stop", .rest⟩
    let reasons : List String :=
      if feasible then []
      else ["Insufficient 70-hour budget remaining: need " ++
        toString estimated_driving_hours ++ "h, have " ++
        toString st.remaining_70_hour ++ "h"]
    .ok { can_complete_trip := feasible
          reasons := reasons
          waypoints := ⟨current_location, .origin⟩ :: ⟨pickup_location, .pickup⟩ ::
            rests ++ [⟨dropoff_location, .dropoff⟩]
          estimated_driving_time := estimated_driving_hours
          hos_status := st }

/-!
## Frontend helpers, translated from the JavaScript sources
-/

/-- JavaScript `x % 1` (remainder with the sign of the dividend) as the
fractional part used by `formatHours`. -/
def jsMod1 (q : ℚ) : ℚ :=
  if q < 0 then q - ⌈q⌉ else q - ⌊q⌋

/-- JavaScript `Math.round`: round half toward positive infinity. -/
def jsRound (q : ℚ) : ℤ :=
  ⌊q + 1 / 2⌋

/-- JavaScript `.toString().padStart(2, '0')` on a nonempty digit
string. -/
def padStart2Zero (s : String) : String :=
  if s.length < 2 then "0" ++ s else s

/-- Translated from DriverDashboard `formatHours` (AddDriverForm.js
bundle, lines 232-234): the hour part is floored, the minutes part is
`Math.round((hours % 1) * 60)` padded to two digits, joined by a colon. -/
def formatHours (hours : ℚ) : String :=
  toString ⌊hours⌋ ++ ":" ++ padStart2Zero (toString (jsRound (jsMod1 hours * 60)))

/-- The HOS fields read by DailyLogSheet `calculateTotals`. -/
structure HosStatusSnapshot where
  hours_on_duty_today : ℚ
  hours_driven_today : ℚ
deriving DecidableEq, Repr

/-- The recap totals displayed by the daily log sheet. -/
structure LogTotals where
  onDutyHours : ℚ
  drivingHours : ℚ
  offDutyHours : ℚ
deriving DecidableEq, Repr

/-- Translated from DailyLogSheet.js `calculateTotals` (lines 163-171):
zero-filled totals without a status; otherwise on-duty and driving hours
are taken as-is and off-duty is `24 - hours_on_duty_today`. -/
def calculateTotals (hosStatus : Option HosStatusSnapshot) : LogTotals :=
  match hosStatus with
  | none => ⟨0, 0, 0⟩
  | some h => ⟨h.hours_on_duty_today, h.hours_driven_today, 24 - h.hours_on_duty_today⟩

/-- A closed sample event used by concrete scenarios. -/
def mkEvent (s e : ℚ) (d : DutyStatus) : DutyStatusEvent :=
  ⟨s, some e, d, "", 0, ""⟩

/-!
## Theorems
-/

/-- C1: for every timeline and evaluation instant, `can_drive` is true
exactly when all three remaining budgets are positive and no 30-minute
break is due; for an empty timeline every remaining budget equals its
maximum and `can_drive` is true; any remaining budget exactly zero forces
`can_drive` to be false. -/
theorem can_drive_characterization :
    (∀ tl t, ((computeHOS defaultRules tl t).can_drive = true ↔
        (0 < (computeHOS defaultRules tl t).remaining_drive_time ∧
         0 < (computeHOS defaultRules tl t).remaining_duty_time ∧
         0 < (computeHOS defaultRules tl t).remaining_70_hour ∧
         (computeHOS defaultRules tl t).needs_30_min_break = false))) ∧
    (∀ t, (computeHOS defaultRules [] t).remaining_drive_time = defaultRules.drive_limit_hours ∧
        (computeHOS defaultRules [] t).remaining_duty_time = defaultRules.duty_window_hours ∧
        (computeHOS defaultRules [] t).remaining_70_hour = defaultRules.weekly_limit_hours ∧
        (computeHOS defaultRules [] t).can_drive = true) ∧
    (∀ tl t, ((computeHOS defaultRules tl t).remaining_drive_time = 0 ∨
              (computeHOS defaultRules tl t).remaining_duty_time = 0 ∨
              (computeHOS defaultRules tl t).remaining_70_hour = 0) →
        (computeHOS defaultRules tl t).can_drive = false) := by
  have hiff : ∀ tl t, ((computeHOS defaultRules tl t).can_drive = true ↔
      (0 < (computeHOS defaultRules tl t).remaining_drive_time ∧
       0 < (computeHOS defaultRules tl t).remaining_duty_time ∧
       0 < (computeHOS defaultRules tl t).remaining_70_hour ∧
       (computeHOS defaultRules tl t).needs_30_min_break = false)) := by
    intro tl t
    have hc : (computeHOS defaultRules tl t).can_drive =
        (decide (0 < (computeHOS defaultRules tl t).remaining_drive_time) &&
         decide (0 < (computeHOS defaultRules tl t).remaining_duty_time) &&
         decide (0 < (computeHOS defaultRules tl t).remaining_70_hour) &&
         !(computeHOS defaultRules tl t).needs_30_min_break) := rfl
    rw [hc]
    simp [Bool.and_eq_true, decide_eq_true_iff, Bool.not_eq_true', and_assoc]
  refine ⟨hiff, ?_, ?_⟩
  · intro t
    have e1 : (computeHOS defaultRules [] t).remaining_drive_time =
        qmax 0 (defaultRules.drive_limit_hours - hoursDrivenToday defaultRules [] t) := rfl
    have e2 : (computeHOS defaultRules [] t).remaining_duty_time =
        qmax 0 (defaultRules.duty_window_hours - (t - dutyPeriodStart defaultRules [] t)) := rfl
    have e3 : (computeHOS defaultRules [] t).remaining_70_hour =
        qmax 0 (defaultRules.weekly_limit_hours - hoursIn8DayPeriod defaultRules [] t) := rfl
    have e4 : (computeHOS defaultRules [] t).needs_30_min_break = false := rfl
    have hd0 : hoursDrivenToday defaultRules [] t = 0 := rfl
    have h80 : hoursIn8DayPeriod defaultRules [] t = 0 := rfl
    have hds : dutyPeriodStart defaultRules [] t = t := rfl
    refine ⟨?_, ?_, ?_, (hiff [] t).mpr ⟨?_, ?_, ?_, e4⟩⟩
    · rw [e1, hd0]; norm_num [qmax, defaultRules]
    · rw [e2, hds, sub_self]; norm_num [qmax, defaultRules]
    · rw [e3, h80]; norm_num [qmax, defaultRules]
    · rw [e1, hd0]; norm_num [qmax, defaultRules]
    · rw [e2, hds, sub_self]; norm_num [qmax, defaultRules]
    · rw [e3, h80]; norm_num [qmax, defaultRules]
  · intro tl t h
    cases hcd : (computeHOS defaultRules tl t).can_drive
    · rfl
    · rcases (hiff tl t).mp hcd with ⟨h1, h2, h3, -⟩
      rcases h with h0 | h0 | h0
      · rw [h0] at h1; exact absurd h1 (lt_irrefl 0)
      · rw [h0] at h2; exact absurd h2 (lt_irrefl 0)
      · rw [h0] at h3; exact absurd h3 (lt_irrefl 0)

/-- Witness for C1: a driver who has driven 11 hours has exactly zero
remaining drive time, and the theorem then yields `can_drive = false`. -/
theorem can_drive_characterization_witness :
    (computeHOS defaultRules [mkEvent 0 11 .DR] 11).remaining_drive_time = 0 ∧
    (computeHOS defaultRules [mkEvent 0 11 .DR] 11).can_drive = false :=
  ⟨by decide, can_drive_characterization.2.2 [mkEvent 0 11 .DR] 11 (Or.inl (by decide))⟩

/-- C2: `remaining_drive_time` equals `drive_limit_hours − hours_driven_today`
when `hours_driven_today ≤ drive_limit_hours` and 0 otherwise, and is
never negative. -/
theorem remaining_drive_time_spec :
    (∀ tl t, (computeHOS defaultRules tl t).hours_driven_today ≤ defaultRules.drive_limit_hours →
        (computeHOS defaultRules tl t).remaining_drive_time =
          defaultRules.drive_limit_hours - (computeHOS defaultRules tl t).hours_driven_today) ∧
    (∀ tl t, defaultRules.drive_limit_hours < (computeHOS defaultRules tl t).hours_driven_today →
        (computeHOS defaultRules tl t).remaining_drive_time = 0) ∧
    (∀ tl t, 0 ≤ (computeHOS defaultRules tl t).remaining_drive_time) := by
  have e : ∀ tl t, (computeHOS defaultRules tl t).remaining_drive_time =
      max 0 (defaultRules.drive_limit_hours - (computeHOS defaultRules tl t).hours_driven_today) :=
    fun tl t => by
      have h : (computeHOS defaultRules tl t).remaining_drive_time =
          qmax 0 (defaultRules.drive_limit_hours -
            (computeHOS defaultRules tl t).hours_driven_today) := rfl
      rw [h, qmax_eq]
  refine ⟨?_, ?_, ?_⟩
  · intro tl t h
    rw [e tl t]
    exact max_eq_right (sub_nonneg.mpr h)
  · intro tl t h
    rw [e tl t]
    exact max_eq_left (sub_nonpos.mpr h.le)
  · intro tl t
    rw [e tl t]
    exact le_max_left 0 _

/-- Witness for C2: on an empty timeline nothing has been driven, so the
remaining drive time is the full 11-hour limit, and a 12-hour drive
saturates it at zero. -/
theorem remaining_drive_time_spec_witness :
    (computeHOS defaultRules [] 0).remaining_drive_time =
      defaultRules.drive_limit_hours - (computeHOS defaultRules [] 0).hours_driven_today ∧
    (computeHOS defaultRules [mkEvent 0 12 .DR] 12).remaining_drive_time = 0 :=
  ⟨remaining_drive_time_spec.1 [] 0 (by decide),
   remaining_drive_time_spec.2.1 [mkEvent 0 12 .DR] 12 (by decide)⟩

/-- C3: an OFF block of exactly 10 hours resets the duty-period start to
its end; a 9h59m block does not (the start stays at the first event);
adjacent OFF and SB events merge into one qualifying rest block; with no
qualifying block the duty-period start is the first recorded event. -/
theorem duty_period_start_spec :
    dutyPeriodStart defaultRules
      [mkEvent 0 2 .ON, mkEvent 2 12 .OFF, mkEvent 12 13 .DR] 13 = 12 ∧
    dutyPeriodStart defaultRules
      [mkEvent 0 2 .ON, mkEvent 2 (719/60) .OFF, mkEvent (719/60) (779/60) .DR] (779/60) = 0 ∧
    dutyPeriodStart defaultRules
      [mkEvent 0 1 .ON, mkEvent 1 6 .OFF, mkEvent 6 11 .SB, mkEvent 11 12 .DR] 12 = 11 ∧
    dutyPeriodStart defaultRules
      [mkEvent 0 2 .ON, mkEvent 2 4 .DR] 4 = 0 := by
  refine ⟨by decide, by decide, by decide, by decide⟩

/-- C4: exactly 8 cumulative driving hours since the last qualifying break
set `needs_30_min_break`, 7h59m does not; a qualifying 30-minute break
restarts the count while a shorter one does not; and the DR 06:00-14:00
scenario yields 8 hours driven, 3 remaining, a required break, and
`can_drive = false`. -/
theorem needs_break_spec :
    (computeHOS defaultRules [mkEvent 6 14 .DR] 14).hours_driven_today = 8 ∧
    (computeHOS defaultRules [mkEvent 6 14 .DR] 14).remaining_drive_time = 3 ∧
    (computeHOS defaultRules [mkEvent 6 14 .DR] 14).needs_30_min_break = true ∧
    (computeHOS defaultRules [mkEvent 6 14 .DR] 14).can_drive = false ∧
    (computeHOS defaultRules [mkEvent 6 (839/60) .DR] (839/60)).needs_30_min_break = false ∧
    (computeHOS defaultRules
      [mkEvent 0 4 .DR, mkEvent 4 (9/2) .OFF, mkEvent (9/2) 9 .DR] 9).needs_30_min_break = false ∧
    (computeHOS defaultRules
      [mkEvent 0 4 .DR, mkEvent 4 (22/5) .OFF, mkEvent (22/5) (42/5) .DR] (42/5)).needs_30_min_break = true := by
  refine ⟨by decide, by decide, by decide, by decide, by decide, by decide, by decide⟩

/-- C5: `remaining_70_hour = max(0, 70 − hours_in_8_day_period)` for every
timeline; an on-duty event ending exactly 8×24 hours in the past
contributes zero to the rolling sum, one ending a second inside the
window contributes exactly that second, and an event straddling the
boundary contributes only its portion inside the window. -/
theorem rolling_70_hour_spec :
    (∀ tl t, (computeHOS defaultRules tl t).remaining_70_hour =
        max 0 (defaultRules.weekly_limit_hours -
          (computeHOS defaultRules tl t).hours_in_8_day_period)) ∧
    (computeHOS defaultRules [mkEvent 0 8 .ON] 200).hours_in_8_day_period = 0 ∧
    (computeHOS defaultRules [mkEvent 0 8 .ON] (719999/3600)).hours_in_8_day_period = 1/3600 ∧
    (computeHOS defaultRules [mkEvent 0 8 .ON] 196).hours_in_8_day_period = 4 := by
  refine ⟨fun tl t => by
    have h : (computeHOS defaultRules tl t).remaining_70_hour =
        qmax 0 (defaultRules.weekly_limit_hours -
          (computeHOS defaultRules tl t).hours_in_8_day_period) := rfl
    rw [h, qmax_eq], by decide, by decide, by decide⟩

/-- C6: the engine is deterministic: recomputing the state from an
identical timeline gives identical results, and planning the same trip on
identical inputs gives an identical result, hence an identical waypoint
sequence and feasibility verdict. -/
theorem engine_deterministic :
    (∀ rs tl₁ tl₂ t₁ t₂, tl₁ = tl₂ → t₁ = t₂ →
        computeHOS rs tl₁ t₁ = computeHOS rs tl₂ t₂) ∧
    (∀ rs tl₁ tl₂ t a b c h₁ h₂, tl₁ = tl₂ → h₁ = h₂ →
        planTrip rs tl₁ t a b c h₁ = planTrip rs tl₂ t a b c h₂) ∧
    (∀ rs tl₁ tl₂ t a b c h₁ h₂, tl₁ = tl₂ → h₁ = h₂ →
        (planTrip rs tl₁ t a b c h₁).map (fun r => (r.waypoints, r.can_complete_trip)) =
        (planTrip rs tl₂ t a b c h₂).map (fun r => (r.waypoints, r.can_complete_trip))) := by
  refine ⟨?_, ?_, ?_⟩
  · intro rs tl₁ tl₂ t₁ t₂ e1 e2; rw [e1, e2]
  · intro rs tl₁ tl₂ t a b c h₁ h₂ e1 e2; rw [e1, e2]
  · intro rs tl₁ tl₂ t a b c h₁ h₂ e1 e2; rw [e1, e2]

/-- Witness for C6: two runs on one concrete timeline agree. -/
theorem engine_deterministic_witness :
    computeHOS defaultRules [mkEvent 6 14 .DR] 14 = computeHOS defaultRules [mkEvent 6 14 .DR] 14 ∧
    planTrip defaultRules [] 0 "a" "b" "c" 5 = planTrip defaultRules [] 0 "a" "b" "c" 5 :=
  ⟨engine_deterministic.1 defaultRules [mkEvent 6 14 .DR] [mkEvent 6 14 .DR] 14 14 rfl rfl,
   engine_deterministic.2.1 defaultRules [] [] 0 "a" "b" "c" 5 5 rfl rfl⟩

/-- C7: `AppendDutyStatus` fails with `OrderingError` whenever the new
timestamp precedes the last event start, fails with `ValidationError`
(given no ordering failure) whenever the duty status is not one of the
four codes or the odometer is negative, and on any error the timeline is
unchanged. -/
theorem append_duty_status_errors :
    (∀ rs tl ds loc odo rem q, precedesLastStart tl q = true →
        appendDutyStatus rs tl ds loc odo rem q = .error .OrderingError) ∧
    (∀ rs tl ds loc odo rem q, precedesLastStart tl q = false →
        (parseStatusCode ds = none ∨ odo < 0) →
        appendDutyStatus rs tl ds loc odo rem q = .error .ValidationError) ∧
    (∀ rs tl ds loc odo rem q err,
        appendDutyStatus rs tl ds loc odo rem q = .error err →
        timelineAfterAppend rs tl ds loc odo rem q = tl) := by
  refine ⟨?_, ?_, ?_⟩
  · intro rs tl ds loc odo rem q h
    simp [appendDutyStatus, h]
  · intro rs tl ds loc odo rem q h hv
    cases hps : parseStatusCode ds with
    | none => simp [appendDutyStatus, h, hps]
    | some st =>
        rcases hv with hv | hv
        · rw [hps] at hv; exact absurd hv (by simp)
        · simp [appendDutyStatus, h, hps, hv]
  · intro rs tl ds loc odo rem q err herr
    simp [timelineAfterAppend, herr]

/-- Witness for C7: appending at hour 3 after an event starting at hour 5
is an ordering error; an unknown status code at hour 7 is a validation
error and leaves the timeline untouched. -/
theorem append_duty_status_errors_witness :
    appendDutyStatus defaultRules [mkEvent 5 6 .ON] "DR" "x" 0 "" 3 = .error .OrderingError ∧
    appendDutyStatus defaultRules [mkEvent 5 6 .ON] "ZZ" "x" 0 "" 7 = .error .ValidationError ∧
    timelineAfterAppend defaultRules [mkEvent 5 6 .ON] "ZZ" "x" 0 "" 7 = [mkEvent 5 6 .ON] :=
  ⟨append_duty_status_errors.1 defaultRules [mkEvent 5 6 .ON] "DR" "x" 0 "" 3 (by decide),
   append_duty_status_errors.2.1 defaultRules [mkEvent 5 6 .ON] "ZZ" "x" 0 "" 7
     (by decide) (Or.inl (by decide)),
   append_duty_status_errors.2.2 defaultRules [mkEvent 5 6 .ON] "ZZ" "x" 0 "" 7
     .ValidationError
     (append_duty_status_errors.2.1 defaultRules [mkEvent 5 6 .ON] "ZZ" "x" 0 "" 7
       (by decide) (Or.inl (by decide)))⟩

/-- C8: `PlanTrip` fails with `ValidationError` exactly on nonpositive
estimated driving hours; for positive hours it always returns a normal
result, and whenever that result is infeasible its reasons list is
nonempty. -/
theorem plan_trip_spec :
    (∀ rs tl t a b c (h : ℚ), h ≤ 0 →
        planTrip rs tl t a b c h = .error .ValidationError) ∧
    (∀ rs tl t a b c (h : ℚ), 0 < h → ∃ r,
        planTrip rs tl t a b c h = .ok r ∧
        (r.can_complete_trip = false → r.reasons ≠ [])) := by
  constructor
  · intro rs tl t a b c h hle
    simp [planTrip, hle]
  · intro rs tl t a b c h hpos
    rw [planTrip, if_neg (not_le.mpr hpos)]
    refine ⟨_, rfl, ?_⟩
    intro hfeas
    simp only at hfeas ⊢
    rw [hfeas]
    simp

/-- Witness for C8: a -1 hour request is rejected, while a 12-hour trip
against a 5-hour remaining 70-hour budget is returned as an infeasible
result. -/
theorem plan_trip_spec_witness :
    planTrip defaultRules [] 0 "a" "b" "c" (-1) = .error .ValidationError ∧
    ∃ r, planTrip defaultRules [mkEvent 0 65 .ON] 65 "a" "b" "c" 12 = .ok r ∧
      (r.can_complete_trip = false → r.reasons ≠ []) :=
  ⟨plan_trip_spec.1 defaultRules [] 0 "a" "b" "c" (-1) (by norm_num),
   plan_trip_spec.2 defaultRules [mkEvent 0 65 .ON] 65 "a" "b" "c" 12 (by norm_num)⟩

/-- C9: for every non-negative hours value whose fractional part is at
least 119/120, `formatHours` renders the minutes component as "60"
instead of rolling over, because the hour part is floored while the
minutes part is rounded independently. -/
theorem formatHours_sixty (q : ℚ) (h0 : 0 ≤ q) (h : 119/120 ≤ jsMod1 q) :
    formatHours q = toString ⌊q⌋ ++ ":" ++ "60" := by
  have hmod : jsMod1 q = q - ⌊q⌋ := by
    rw [jsMod1, if_neg (not_lt.mpr h0)]
  rw [hmod] at h
  have hfrac1 : q - ⌊q⌋ < 1 := by
    have := Int.sub_one_lt_floor q
    linarith
  have hround : jsRound ((q - ⌊q⌋) * 60) = 60 := by
    rw [jsRound]
    rw [Int.floor_eq_iff]
    constructor
    · push_cast
      linarith
    · push_cast
      linarith
  rw [formatHours, hmod, hround]
  rfl

/-- Witness for C9: `formatHours 10.995` is the string "10:60". -/
theorem formatHours_sixty_witness :
    formatHours (10995/1000) = "10:60" := by
  have h := formatHours_sixty (10995/1000) (by norm_num) (by decide)
  rw [h]
  decide

/-- C10: the daily-log recap totals are zero-filled without a status;
with one, on-duty plus off-duty always equals exactly 24 hours, driving
hours are reported as-is inside on-duty, and off-duty is the 24-hour
complement of on-duty alone, independent of driving. -/
theorem calculate_totals_spec :
    calculateTotals none = ⟨0, 0, 0⟩ ∧
    (∀ h : HosStatusSnapshot,
        (calculateTotals (some h)).onDutyHours + (calculateTotals (some h)).offDutyHours = 24 ∧
        (calculateTotals (some h)).drivingHours = h.hours_driven_today ∧
        (calculateTotals (some h)).offDutyHours = 24 - h.hours_on_duty_today) := by
  refine ⟨rfl, fun h => ⟨?_, rfl, rfl⟩⟩
  show h.hours_on_duty_today + (24 - h.hours_on_duty_today) = 24
  ring

end ELD
